import Mathlib

/-!
Verification development for the BCX cross-client messaging protocol and
character proxy layer (source files `src/modules/messaging.ts` and
`src/characters.ts`).  The TypeScript code is shallowly embedded: JSON-like
wire payloads become the inductive `Value`, the stateful pending-query map
becomes explicit state passing over `MessagingState`, and the observable
actions of each handler (server sends, promise settlements, timer
manipulation, handler invocations, log lines) become a list of `Effect`s.
-/

/-- JSON-compatible runtime value, the type of all wire payloads.  `vObj`
models a plain JS object as an association list of fields; a missing field
reads as `none` (JS `undefined`). -/
inductive Value where
  | vNull
  | vBool (b : Bool)
  | vNum (n : Int)
  | vStr (s : String)
  | vArr (elems : List Value)
  | vObj (fields : List (String × Value))

/-- Field lookup in a JS object literal: first binding of the key wins. -/
def lookupField : List (String × Value) → String → Option Value
  | [], _ => none
  | (k, v) :: rest, key => if k = key then some v else lookupField rest key

/-- Property access `v.key`: `undefined` (`none`) on non-objects and missing
keys, mirroring JS optional access as used by the handlers. -/
def Value.get : Value → String → Option Value
  | .vObj fields, key => lookupField fields key
  | _, _ => none

/-- The `isObject` helper from `utils.ts` (not under `src/`): a non-null,
non-array JS object.  Only `vObj` qualifies. -/
def Value.isObject : Value → Bool
  | .vObj _ => true
  | _ => false

/-- The check `typeof x === "string"` applied to a possibly-missing value. -/
def isStringValue : Option Value → Bool
  | some (.vStr _) => true
  | _ => false

/-- The check `typeof x === "boolean"` applied to a possibly-missing value. -/
def isBoolValue : Option Value → Bool
  | some (.vBool _) => true
  | _ => false

/-- The check `typeof x === "number"` applied to a possibly-missing value. -/
def isNumberValue : Option Value → Bool
  | some (.vNum _) => true
  | _ => false

/-- The `isObject` check applied to a possibly-missing value: `undefined` is
not an object. -/
def isObjectValue : Option Value → Bool
  | some v => v.isObject
  | none => false

/-! ## Messaging layer (`src/modules/messaging.ts`) -/

/-- Observable action emitted by the messaging layer.  `serverSend` is the
`ServerSend("ChatRoomChat", {Content: "BCXMsg", Type: "Hidden", Target,
Dictionary: {type, message}})` call of `sendHiddenMessage`; `resolvePromise`
and `rejectPromise` settle the promise identified by the pending query's
`promiseId`; `invokeQueryHandler` / `invokeMessageHandler` are calls into the
respective handler tables; `callNext` is the hook falling through to the
original `ChatRoomMessage`. -/
inductive Effect where
  | serverSend (target : Option Int) (msgType : String) (message : Option Value)
  | logWarn (text : String)
  | clearTimer (handle : Nat)
  | resolvePromise (promiseId : Nat) (data : Option Value)
  | rejectPromise (promiseId : Nat) (err : Option Value)
  | invokeQueryHandler (tag : String) (sender : Int) (payload : Option Value)
  | invokeMessageHandler (tag : String) (sender : Int) (payload : Option Value)
  | callNext

/-- The `IPendingQuery` record: the promise's resolve/reject pair is
represented by the `promiseId` the settlement effects refer to, and the
timeout handle by a plain number, as in the source. -/
structure IPendingQuery where
  target : Int
  promiseId : Nat
  timeout : Nat
deriving DecidableEq

/-- The mutable module state: the `pendingQueries` map, keyed by correlation
id. -/
structure MessagingState where
  pendingQueries : List (String × IPendingQuery)

/-- Ambient environment read by the messaging code: chat-room membership and
init flag (`ServerPlayerIsInChatRoom()`, `firstTimeInit`), self's member
number, the character/access predicates used by the inbound query handler
(`getChatroomCharacter(sender)` non-null, `character.hasAccessToPlayer()`),
and the sets of registered query and hidden-message handler tags. -/
structure MessagingEnv where
  inChatRoom : Bool
  firstTimeInit : Bool
  playerMemberNumber : Int
  charExists : Int → Bool
  charHasAccess : Int → Bool
  queryHandlerTags : List String
  hiddenHandlerTags : List String

/-- `Map.get` on `pendingQueries`. -/
def findQuery : List (String × IPendingQuery) → String → Option IPendingQuery
  | [], _ => none
  | (k, v) :: rest, id => if k = id then some v else findQuery rest id

/-- `Map.delete` on `pendingQueries`. -/
def eraseQuery (l : List (String × IPendingQuery)) (id : String) :
    List (String × IPendingQuery) :=
  l.filter (fun p => p.1 ≠ id)

/-- `Map.set` on `pendingQueries` (keys are fresh uuids, so plain cons). -/
def setQuery (l : List (String × IPendingQuery)) (id : String)
    (info : IPendingQuery) : List (String × IPendingQuery) :=
  (id, info) :: l

/-- `sendHiddenMessage(type, message, Target)`: no-op unless inside a chat
room and past first-time init, otherwise one `ServerSend` of the `{type,
message}` envelope.  The source's default `Target = null` is the `none`
target. -/
def sendHiddenMessage (env : MessagingEnv) (type : String)
    (message : Option Value) (target : Option Int) : List Effect :=
  if !env.inChatRoom || env.firstTimeInit then []
  else [.serverSend target type message]

/-- The body of `sendQuery`: rejects immediately during first-time init;
otherwise registers the pending entry under the fresh correlation id and
emits the query envelope addressed to the target.  The nondeterministically
generated uuid, the promise identity and the timer handle are passed in as
parameters. -/
def sendQuery (env : MessagingEnv) (st : MessagingState) (type : String)
    (data : Option Value) (target : Int) (id : String) (promiseId : Nat)
    (timerHandle : Nat) : MessagingState × List Effect :=
  if env.firstTimeInit then
    (st, [.rejectPromise promiseId (some (.vStr "Unavailable during init"))])
  else
    ({ pendingQueries :=
        setQuery st.pendingQueries id ⟨target, promiseId, timerHandle⟩ },
     sendHiddenMessage env "query"
       (some (.vObj (("id", Value.vStr id) :: ("query", Value.vStr type) ::
         (match data with | some d => [("data", d)] | none => []))))
       (some target))

/-- The timeout callback installed by `sendQuery`: logs, deletes the pending
entry, and rejects the captured promise with `"Timed out"`.  It runs only if
the timer has not been cleared, i.e. while the entry is still pending. -/
def queryTimeoutFire (st : MessagingState) (id : String) (promiseId : Nat) :
    MessagingState × List Effect :=
  ({ pendingQueries := eraseQuery st.pendingQueries id },
   [.logWarn "Query timed out", .rejectPromise promiseId (some (.vStr "Timed out"))])

/-- Shape guard of the inbound `query` handler: `isObject(message) &&
typeof message.id === "string" && typeof message.query === "string"`,
returning the two strings on success. -/
def checkQueryShape (msg : Value) : Option (String × String) :=
  if msg.isObject then
    match msg.get "id", msg.get "query" with
    | some (.vStr id), some (.vStr q) => some (id, q)
    | _, _ => none
  else none

/-- The reply function handed to a registered query handler (the closure at
the end of the `query` handler): sends a `queryAnswer` envelope `{id, ok,
data}` addressed specifically to the querying sender. -/
def queryReplyFn (env : MessagingEnv) (id : String) (sender : Int) (ok : Bool)
    (data : Option Value) : List Effect :=
  sendHiddenMessage env "queryAnswer"
    (some (.vObj (("id", Value.vStr id) :: ("ok", Value.vBool ok) ::
      (match data with | some d => [("data", d)] | none => []))))
    (some sender)

/-- The inbound `query` hidden-message handler: drops malformed envelopes
with a log; answers `{id, ok: false}` (unaddressed, `Target = null`) when the
sender's character cannot be resolved or fails `hasAccessToPlayer`, and
likewise when no handler is registered for the tag; otherwise invokes the
registered handler with the sender and payload. -/
def queryHandler (env : MessagingEnv) (sender : Int) (msg : Value) :
    List Effect :=
  match checkQueryShape msg with
  | none => [.logWarn "Invalid query"]
  | some (id, q) =>
    if !(env.charExists sender && env.charHasAccess sender) then
      sendHiddenMessage env "queryAnswer"
        (some (.vObj [("id", .vStr id), ("ok", .vBool false)])) none
    else if !(env.queryHandlerTags.contains q) then
      .logWarn "Query no handler" ::
        sendHiddenMessage env "queryAnswer"
          (some (.vObj [("id", .vStr id), ("ok", .vBool false)])) none
    else
      [.invokeQueryHandler q sender (msg.get "data")]

/-- Shape guard of the inbound `queryAnswer` handler: `isObject(message) &&
typeof message.id === "string" && typeof message.ok === "boolean"`. -/
def checkAnswerShape (msg : Value) : Option (String × Bool) :=
  if msg.isObject then
    match msg.get "id", msg.get "ok" with
    | some (.vStr id), some (.vBool ok) => some (id, ok)
    | _, _ => none
  else none

/-- The origin guard of the `queryAnswer` handler, verbatim from the source:
`info.target !== info.target`. -/
def answerOriginGuard (info : IPendingQuery) : Bool :=
  info.target != info.target

/-- The inbound `queryAnswer` hidden-message handler: drops malformed
envelopes with a log; logs and discards answers whose id has no pending
entry; otherwise (the origin guard never firing) clears the entry's timer,
deletes the entry, and resolves the promise with `message.data` when `ok`
or rejects it with `message.data` when not. -/
def queryAnswerHandler (st : MessagingState) (sender : Int) (msg : Value) :
    MessagingState × List Effect :=
  match checkAnswerShape msg with
  | none => (st, [.logWarn "Invalid queryAnswer"])
  | some (id, ok) =>
    match findQuery st.pendingQueries id with
    | none => (st, [.logWarn "Response to unknown query"])
    | some info =>
      if answerOriginGuard info then
        (st, [.logWarn "Response to query not from target"])
      else
        ({ pendingQueries := eraseQuery st.pendingQueries id },
         [.clearTimer info.timeout,
          if ok then .resolvePromise info.promiseId (msg.get "data")
          else .rejectPromise info.promiseId (msg.get "data")])

/-- Recognition test of the `ChatRoomMessage` hook: `data?.Type === "Hidden"
&& data.Content === "BCXMsg" && typeof data.Sender === "number"`, returning
the sender on success. -/
def isHiddenBCX (data : Value) : Option Int :=
  match data.get "Type", data.get "Content", data.get "Sender" with
  | some (.vStr ty), some (.vStr c), some (.vNum sender) =>
    if ty = "Hidden" && c = "BCXMsg" then some sender else none
  | _, _, _ => none

/-- The `ChatRoomMessage` hook installed by `ModuleMessaging.load`: non-BCX
traffic falls through to the original function; a hidden BCX message from
self (or any message during first-time init) is ignored entirely; a missing
or non-object `Dictionary` is logged and dropped; a string inner `type` with
no registered handler is logged and dropped; only otherwise is the registered
hidden-message handler invoked with the sender and inner message. -/
def chatRoomMessageHook (env : MessagingEnv) (data : Value) : List Effect :=
  match isHiddenBCX data with
  | none => [.callNext]
  | some sender =>
    if sender == env.playerMemberNumber || env.firstTimeInit then []
    else
      match data.get "Dictionary" with
      | none => [.logWarn "Hidden message no Dictionary"]
      | some dict =>
        if !dict.isObject then [.logWarn "Hidden message no Dictionary"]
        else
          match dict.get "type" with
          | some (.vStr t) =>
            if env.hiddenHandlerTags.contains t then
              [.invokeMessageHandler t sender (dict.get "message")]
            else [.logWarn "Hidden message no handler"]
          | _ => []

/-! ## Character proxy layer (`src/characters.ts`) -/

/-- Outcome of the underlying `sendQuery` promise as seen by a remote-variant
method: resolution with the answer's data (possibly `undefined`) or rejection
with an error value (possibly none). -/
inductive QueryOutcome where
  | resolved (data : Option Value)
  | rejected (err : Option Value)

/-- A promise rejection value on the caller side: either a thrown
`Error(msg)` (the `throw new Error("Bad data")` of the validators) or a raw
rejected value propagated from `sendQuery`. -/
inductive RejectValue where
  | jsError (msg : String)
  | value (v : Option Value)

/-- `promise.then(f)`: rejections pass through untouched; resolutions run the
validator, which may itself reject by throwing. -/
def promiseThen (o : QueryOutcome) (f : Option Value → Except RejectValue α) :
    Except RejectValue α :=
  match o with
  | .rejected e => .error (.value e)
  | .resolved d => f d

/-- Validator shared by every remote method whose `.then` checks
`typeof data !== "boolean"` and otherwise returns the boolean. -/
def booleanValidate (data : Option Value) : Except RejectValue Bool :=
  match data with
  | some (.vBool b) => .ok b
  | _ => .error (.jsError "Bad data")

namespace ChatroomCharacter

/-- Remote `getPermissionAccess`: the boolean validation followed by
`.catch(err => false)`, so every failure resolves with `false`. -/
def getPermissionAccess (o : QueryOutcome) : Except RejectValue Bool :=
  match promiseThen o booleanValidate with
  | .ok b => .ok b
  | .error _ => .ok false

/-- The list `TOGGLEABLE_MODULES` from `constants.ts`: `Log`, `Curses`,
`Rules`. -/
def TOGGLEABLE_MODULES : List Int := [2, 3, 4]

/-- Remote `getDisabledModules` validator: requires an array and keeps only
the toggleable module categories. -/
def getDisabledModules (o : QueryOutcome) : Except RejectValue (List Value) :=
  promiseThen o (fun data =>
    match data with
    | some (.vArr xs) =>
      .ok (xs.filter (fun i =>
        match i with
        | .vNum n => TOGGLEABLE_MODULES.contains n
        | _ => false))
    | _ => .error (.jsError "Bad data"))

/-- One entry check of the `permissions` validator: an array whose first
element is a boolean and whose second is a number naming a defined
`AccessLevel`.  The `AccessLevel` enum lives in `modules/authority.ts`
(outside `src/`), so definedness is a parameter. -/
def permissionEntryOk (accessLevelDefined : Int → Bool) (v : Value) : Bool :=
  match v with
  | .vArr (.vBool _ :: .vNum n :: _) => accessLevelDefined n
  | _ => false

/-- Remote `getPermissions` validator.  On success the source converts the
bundle through `getPermissionDataFromBundle` (in `modules/authority.ts`,
outside `src/`); the conversion is a parameter. -/
def getPermissions (accessLevelDefined : Int → Bool)
    (fromBundle : Value → Value) (o : QueryOutcome) :
    Except RejectValue Value :=
  promiseThen o (fun data =>
    match data with
    | some (.vObj fields) =>
      if fields.all (fun kv => permissionEntryOk accessLevelDefined kv.2) then
        .ok (fromBundle (.vObj fields))
      else .error (.jsError "Bad data")
    | _ => .error (.jsError "Bad data"))

/-- Remote `getMyAccessLevel` validator: a number naming a defined
`AccessLevel` (the enum is outside `src/`, so definedness is a parameter). -/
def getMyAccessLevel (accessLevelDefined : Int → Bool) (o : QueryOutcome) :
    Except RejectValue Int :=
  promiseThen o (fun data =>
    match data with
    | some (.vNum n) =>
      if accessLevelDefined n then .ok n else .error (.jsError "Bad data")
    | _ => .error (.jsError "Bad data"))

/-- The `.then` validation of the remote `setPermission`. -/
def setPermissionThen (o : QueryOutcome) : Except RejectValue Bool :=
  promiseThen o booleanValidate

/-- One entry check of the `rolesData` validator: a two-element array of a
number and a string. -/
def rolePairOk (v : Value) : Bool :=
  match v with
  | .vArr [.vNum _, .vStr _] => true
  | _ => false

/-- A field that must be an array of role pairs. -/
def roleListOk (v : Option Value) : Bool :=
  match v with
  | some (.vArr l) => l.all rolePairOk
  | _ => false

/-- Remote `getRolesData` validator. -/
def getRolesData (o : QueryOutcome) : Except RejectValue Value :=
  promiseThen o (fun data =>
    match data with
    | some d =>
      if d.isObject && roleListOk (d.get "mistresses") && roleListOk (d.get "owners")
          && isBoolValue (d.get "allowAddMistress")
          && isBoolValue (d.get "allowRemoveMistress")
          && isBoolValue (d.get "allowAddOwner")
          && isBoolValue (d.get "allowRemoveOwner") then .ok d
      else .error (.jsError "Bad data")
    | none => .error (.jsError "Bad data"))

/-- Remote `editRole` validator. -/
def editRole (o : QueryOutcome) : Except RejectValue Bool :=
  promiseThen o booleanValidate

/-- One entry check of the `logData` validator: a four-element array whose
first three elements are numbers. -/
def logEntryOk (v : Value) : Bool :=
  match v with
  | .vArr [.vNum _, .vNum _, .vNum _, _] => true
  | _ => false

/-- Remote `getLogEntries` validator. -/
def getLogEntries (o : QueryOutcome) : Except RejectValue (List Value) :=
  promiseThen o (fun data =>
    match data with
    | some (.vArr l) =>
      if l.all logEntryOk then .ok l else .error (.jsError "Bad data")
    | _ => .error (.jsError "Bad data"))

/-- Remote `logMessageDelete` validator. -/
def logMessageDelete (o : QueryOutcome) : Except RejectValue Bool :=
  promiseThen o booleanValidate

/-- Remote `getLogConfig` validator: an object all of whose values are
numbers; entries naming an unknown category or level are then deleted.  The
`LOG_CONFIG_NAMES` and `LogAccessLevel` tables live in `modules/log.ts`
(outside `src/`) and are parameters. -/
def getLogConfig (nameDefined : String → Bool) (levelDefined : Int → Bool)
    (o : QueryOutcome) : Except RejectValue Value :=
  promiseThen o (fun data =>
    match data with
    | some (.vObj fields) =>
      if fields.all (fun kv => isNumberValue (some kv.2)) then
        .ok (.vObj (fields.filter (fun kv =>
          match kv.2 with
          | .vNum n => nameDefined kv.1 && levelDefined n
          | _ => false)))
      else .error (.jsError "Bad data")
    | _ => .error (.jsError "Bad data"))

/-- Remote `setLogConfig` validator. -/
def setLogConfig (o : QueryOutcome) : Except RejectValue Bool :=
  promiseThen o booleanValidate

/-- Remote `logClear` validator. -/
def logClear (o : QueryOutcome) : Except RejectValue Bool :=
  promiseThen o booleanValidate

/-- Remote `logPraise` validator. -/
def logPraise (o : QueryOutcome) : Except RejectValue Bool :=
  promiseThen o booleanValidate

/-- Remote `logGetAllowedActions` validator. -/
def logGetAllowedActions (o : QueryOutcome) : Except RejectValue Value :=
  promiseThen o (fun data =>
    match data with
    | some d =>
      if d.isObject && isBoolValue (d.get "delete")
          && isBoolValue (d.get "configure") && isBoolValue (d.get "praise")
          && isBoolValue (d.get "leaveMessage") then .ok d
      else .error (.jsError "Bad data")
    | none => .error (.jsError "Bad data"))

/-- Remote `curseItem` validator. -/
def curseItem (o : QueryOutcome) : Except RejectValue Bool :=
  promiseThen o booleanValidate

/-- Remote `curseLift` validator. -/
def curseLift (o : QueryOutcome) : Except RejectValue Bool :=
  promiseThen o booleanValidate

/-- Remote `curseBatch` validator. -/
def curseBatch (o : QueryOutcome) : Except RejectValue Bool :=
  promiseThen o booleanValidate

/-- Remote `curseLiftAll` validator. -/
def curseLiftAll (o : QueryOutcome) : Except RejectValue Bool :=
  promiseThen o booleanValidate

/-- Remote `conditionsGetByCategory` validator: the guard
`guard_ConditionsCategoryPublicData` lives in `modules/conditions.ts`
(outside `src/`) and is a parameter. -/
def conditionsGetByCategory (guard : Option Value → Bool) (o : QueryOutcome) :
    Except RejectValue (Option Value) :=
  promiseThen o (fun data =>
    if guard data then .ok data else .error (.jsError "Bad data"))

/-- Remote `conditionSetLimit` validator. -/
def conditionSetLimit (o : QueryOutcome) : Except RejectValue Bool :=
  promiseThen o booleanValidate

/-- Remote `conditionUpdate` validator. -/
def conditionUpdate (o : QueryOutcome) : Except RejectValue Bool :=
  promiseThen o booleanValidate

/-- Remote `conditionCategoryUpdate` validator. -/
def conditionCategoryUpdate (o : QueryOutcome) : Except RejectValue Bool :=
  promiseThen o booleanValidate

/-- Remote `ruleCreate` validator. -/
def ruleCreate (o : QueryOutcome) : Except RejectValue Bool :=
  promiseThen o booleanValidate

/-- Remote `ruleDelete` validator. -/
def ruleDelete (o : QueryOutcome) : Except RejectValue Bool :=
  promiseThen o booleanValidate

end ChatroomCharacter

/-- The `"self" | "min"` edit-type argument of `setPermission`. -/
inductive PermissionEditType where
  | selfEdit
  | minEdit
deriving DecidableEq

/-- The wire spelling of the edit type. -/
def PermissionEditType.wireName : PermissionEditType → String
  | .selfEdit => "self"
  | .minEdit => "min"

/-- Synchronous outcome of a `setPermission` call: a thrown caller error, a
`sendQuery` issued over the wire (remote variant), or a direct call into the
local authority module (self variant). -/
inductive SetPermissionAction where
  | callerError (msg : String)
  | sendQueryCall (tag : String) (payload : Value) (target : Int)
  | localSelfAccess (permission : String) (value : Bool)
  | localMinAccess (permission : String) (value : Int)

/-- Remote `ChatroomCharacter.setPermission` (the synchronous part): builds
the `{permission, edit, target}` payload and issues the `editPermission`
query to the character's member number.  No runtime check of `target`'s
shape is performed. -/
def ChatroomCharacter.setPermission (memberNumber : Int) (permission : String)
    (type : PermissionEditType) (target : Value) : SetPermissionAction :=
  .sendQueryCall "editPermission"
    (.vObj [("permission", .vStr permission),
            ("edit", .vStr type.wireName),
            ("target", target)])
    memberNumber

/-- Self-variant `PlayerCharacter.setPermission`: a non-boolean target for a
`"self"` edit, or a non-number target for a `"min"` edit, throws immediately;
otherwise the corresponding local authority function is called. -/
def PlayerCharacter.setPermission (permission : String)
    (type : PermissionEditType) (target : Value) : SetPermissionAction :=
  match type with
  | .selfEdit =>
    match target with
    | .vBool b => .localSelfAccess permission b
    | _ => .callerError "Invalid target value for self permission edit"
  | .minEdit =>
    match target with
    | .vNum n => .localMinAccess permission n
    | _ => .callerError "Invalid target value for min permission edit"

/-! ## Character registry (`src/characters.ts`, `getChatroomCharacter` /
`getPlayerCharacter`) -/

/-- A game character object: `id` models JS object identity (the `===`
comparisons against `Player` and the `ChatRoomCharacter` array), and
`memberNumber` the `MemberNumber` field. -/
structure GameCharacter where
  id : Nat
  memberNumber : Int
deriving DecidableEq

/-- A cached character proxy: `uid` distinguishes proxy instances,
`character` is the wrapped game character, `isPlayer` tells the
`PlayerCharacter` variant from the plain `ChatroomCharacter` one. -/
structure CharacterProxy where
  uid : Nat
  character : GameCharacter
  isPlayer : Bool
deriving DecidableEq

/-- Ambient environment of the registry: the `Player` object and the
`ChatRoomCharacter` member list of the current session. -/
structure RegistryEnv where
  player : GameCharacter
  chatRoomCharacter : List GameCharacter

/-- The registry state: the `currentRoomCharacters` array plus a counter
allocating fresh proxy uids. -/
structure RegistryState where
  currentRoomCharacters : List CharacterProxy
  nextUid : Nat

/-- `cleanOldCharacters`: splice out every cached proxy that is not the
player's and whose character object is no longer in `ChatRoomCharacter`. -/
def cleanOldCharacters (env : RegistryEnv) (st : RegistryState) :
    RegistryState :=
  { st with
    currentRoomCharacters := st.currentRoomCharacters.filter
      (fun c => c.isPlayer || decide (c.character ∈ env.chatRoomCharacter)) }

/-- `getChatroomCharacter(memberNumber)`: clean stale proxies, return the
cached proxy with that member number if any; otherwise construct and cache a
`PlayerCharacter` when the number is self's, a `ChatroomCharacter` when a
session member carries the number, and return `none` otherwise. -/
def getChatroomCharacter (env : RegistryEnv) (st : RegistryState)
    (memberNumber : Int) : Option CharacterProxy × RegistryState :=
  let st1 := cleanOldCharacters env st
  match st1.currentRoomCharacters.find?
      (fun c => c.character.memberNumber == memberNumber) with
  | some c => (some c, st1)
  | none =>
    if env.player.memberNumber == memberNumber then
      let c : CharacterProxy := ⟨st1.nextUid, env.player, true⟩
      (some c,
       { currentRoomCharacters := st1.currentRoomCharacters ++ [c],
         nextUid := st1.nextUid + 1 })
    else
      match env.chatRoomCharacter.find? (fun c => c.memberNumber == memberNumber) with
      | none => (none, st1)
      | some bc =>
        let c : CharacterProxy := ⟨st1.nextUid, bc, false⟩
        (some c,
         { currentRoomCharacters := st1.currentRoomCharacters ++ [c],
           nextUid := st1.nextUid + 1 })

/-- `getPlayerCharacter()`: return the cached proxy wrapping the `Player`
object itself, creating and caching it if absent (no cleanup pass). -/
def getPlayerCharacter (env : RegistryEnv) (st : RegistryState) :
    CharacterProxy × RegistryState :=
  match st.currentRoomCharacters.find? (fun c => c.character == env.player) with
  | some c => (c, st)
  | none =>
    let c : CharacterProxy := ⟨st.nextUid, env.player, true⟩
    (c,
     { currentRoomCharacters := st.currentRoomCharacters ++ [c],
       nextUid := st.nextUid + 1 })

/-! ## Effect rebuild (`src/characters.ts`, `buildPlayerEffects`) -/

/-- The `BCX_effects` record: an ordered list of effect markers. -/
structure BCXEffects where
  Effect : List String
deriving DecidableEq

/-- `defaultBCXEffects` from `constants.ts`: the empty record. -/
def defaultBCXEffects : BCXEffects := { Effect := [] }

/-- Downstream action of one rebuild tick: the `CharacterRefresh(Player,
false)` display refresh and the `announceSelf(false)` self-announcement. -/
inductive RebuildEffect where
  | characterRefresh
  | announceSelf
deriving DecidableEq

/-- `buildPlayerEffects`: rebuild the record by running every registered
builder in registration order on a fresh copy of the default record; if the
result is structurally equal (`isEqual`) to the player proxy's current
`Effects`, do nothing; otherwise install it and trigger exactly one refresh
and one self-announcement.  The registered builder list and the current
record are passed in explicitly. -/
def buildPlayerEffects (builders : List (BCXEffects → BCXEffects))
    (current : BCXEffects) : BCXEffects × List RebuildEffect :=
  let effects := builders.foldl (fun e b => b e) defaultBCXEffects
  if effects = current then (current, [])
  else (effects, [.characterRefresh, .announceSelf])

/-- Well-formedness of the character registry, maintained by the lookup
functions: cached proxies carry pairwise-distinct member numbers (at most
one live proxy per member id), a proxy is the `PlayerCharacter` variant
exactly when it wraps the `Player` object, and any proxy carrying self's
member number wraps the `Player` object. -/
def RegistryWF (env : RegistryEnv) (st : RegistryState) : Prop :=
  List.Pairwise (fun a b => a.character.memberNumber ≠ b.character.memberNumber)
    st.currentRoomCharacters ∧
  (∀ p ∈ st.currentRoomCharacters, p.isPlayer = true ↔ p.character = env.player) ∧
  (∀ p ∈ st.currentRoomCharacters,
    p.character.memberNumber = env.player.memberNumber → p.character = env.player)

/-! ## Theorems -/

theorem findQuery_eraseQuery (l : List (String × IPendingQuery)) (id : String) :
    findQuery (eraseQuery l id) id = none := by
  induction l with
  | nil => rfl
  | cons hd tl ih =>
    by_cases h : hd.1 = id
    · simpa [eraseQuery, List.filter_cons, h] using ih
    · simpa [eraseQuery, List.filter_cons, h, findQuery] using ih

/-- C1: an inbound `queryAnswer` envelope whose id matches a pending entry
clears that entry's timer, removes the entry from the pending map, and
settles the promise: resolving with the answer's `data` when `ok` is true,
rejecting with the (possibly absent) supplied error value when `ok` is
false. -/
theorem C1_queryAnswer_settles_pending
    (st : MessagingState) (sender : Int) (msg : Value) (i : String)
    (ok : Bool) (info : IPendingQuery)
    (hobj : msg.isObject = true)
    (hid : msg.get "id" = some (.vStr i))
    (hok : msg.get "ok" = some (.vBool ok))
    (hpending : findQuery st.pendingQueries i = some info) :
    queryAnswerHandler st sender msg =
      ({ pendingQueries := eraseQuery st.pendingQueries i },
       [.clearTimer info.timeout,
        if ok then .resolvePromise info.promiseId (msg.get "data")
        else .rejectPromise info.promiseId (msg.get "data")]) := by
  simp [queryAnswerHandler, checkAnswerShape, hobj, hid, hok, hpending,
    answerOriginGuard]

theorem C1_witness :
    (Value.vObj [("id", .vStr "q1"), ("ok", .vBool true),
      ("data", .vNum 3)]).isObject = true ∧
    queryAnswerHandler ⟨[("q1", ⟨7, 0, 5⟩)]⟩ 7
        (.vObj [("id", .vStr "q1"), ("ok", .vBool true), ("data", .vNum 3)]) =
      ({ pendingQueries := eraseQuery [("q1", ⟨7, 0, 5⟩)] "q1" },
       [.clearTimer 5, .resolvePromise 0 (some (.vNum 3))]) :=
  ⟨rfl, C1_queryAnswer_settles_pending ⟨[("q1", ⟨7, 0, 5⟩)]⟩ 7
    (.vObj [("id", .vStr "q1"), ("ok", .vBool true), ("data", .vNum 3)])
    "q1" true ⟨7, 0, 5⟩ rfl rfl rfl rfl⟩

/-- C2: the timeout callback removes the pending entry and rejects the
promise with `"Timed out"`; afterwards the id has no pending entry, so any
late matching answer is merely logged and discarded — the handler leaves the
state unchanged and emits no resolution or rejection, so the settled promise
is never settled a second time. -/
theorem C2_timeout_removes_and_late_answer_dropped
    (st : MessagingState) (i : String) (info : IPendingQuery)
    (hpending : findQuery st.pendingQueries i = some info) :
    queryTimeoutFire st i info.promiseId =
      ({ pendingQueries := eraseQuery st.pendingQueries i },
       [.logWarn "Query timed out",
        .rejectPromise info.promiseId (some (.vStr "Timed out"))]) ∧
    findQuery (eraseQuery st.pendingQueries i) i = none ∧
    (∀ (sender : Int) (msg : Value) (ok : Bool),
      msg.isObject = true →
      msg.get "id" = some (.vStr i) →
      msg.get "ok" = some (.vBool ok) →
      queryAnswerHandler { pendingQueries := eraseQuery st.pendingQueries i }
          sender msg =
        ({ pendingQueries := eraseQuery st.pendingQueries i },
         [.logWarn "Response to unknown query"])) := by
  refine ⟨rfl, findQuery_eraseQuery _ _, ?_⟩
  intro sender msg ok hobj hid hok
  simp [queryAnswerHandler, checkAnswerShape, hobj, hid, hok,
    findQuery_eraseQuery]

theorem C2_witness :
    findQuery [("q2", (⟨9, 1, 8⟩ : IPendingQuery))] "q2" = some ⟨9, 1, 8⟩ ∧
    queryTimeoutFire ⟨[("q2", ⟨9, 1, 8⟩)]⟩ "q2" 1 =
      ({ pendingQueries := eraseQuery [("q2", ⟨9, 1, 8⟩)] "q2" },
       [.logWarn "Query timed out",
        .rejectPromise 1 (some (.vStr "Timed out"))]) :=
  ⟨rfl, (C2_timeout_removes_and_late_answer_dropped ⟨[("q2", ⟨9, 1, 8⟩)]⟩ "q2"
    ⟨9, 1, 8⟩ rfl).1⟩

/-- C4: the origin guard of the `queryAnswer` handler compares the pending
entry's `target` against itself and is therefore never true, and the
handler's entire behaviour (state change and effects) is independent of
which sender delivered the answer; a matching well-formed answer is accepted
and settles the promise no matter the sender. -/
theorem C4_answer_origin_check_disabled :
    (∀ info : IPendingQuery, answerOriginGuard info = false) ∧
    (∀ (st : MessagingState) (msg : Value) (s₁ s₂ : Int),
      queryAnswerHandler st s₁ msg = queryAnswerHandler st s₂ msg) ∧
    (∀ (st : MessagingState) (sender : Int) (msg : Value) (i : String)
        (ok : Bool) (info : IPendingQuery),
      msg.isObject = true →
      msg.get "id" = some (.vStr i) →
      msg.get "ok" = some (.vBool ok) →
      findQuery st.pendingQueries i = some info →
      (queryAnswerHandler st sender msg).2 =
        [.clearTimer info.timeout,
         if ok then .resolvePromise info.promiseId (msg.get "data")
         else .rejectPromise info.promiseId (msg.get "data")]) := by
  refine ⟨?_, ?_, ?_⟩
  · intro info
    simp [answerOriginGuard]
  · intro st msg s₁ s₂
    rfl
  · intro st sender msg i ok info hobj hid hok hpending
    simp [queryAnswerHandler, checkAnswerShape, hobj, hid, hok, hpending,
      answerOriginGuard]

theorem C4_witness :
    (Value.vObj [("id", .vStr "q4"), ("ok", .vBool false)]).isObject = true ∧
    (queryAnswerHandler ⟨[("q4", ⟨3, 2, 6⟩)]⟩ 11
        (.vObj [("id", .vStr "q4"), ("ok", .vBool false)])).2 =
      [.clearTimer 6, .rejectPromise 2 none] :=
  ⟨rfl, C4_answer_origin_check_disabled.2.2 ⟨[("q4", ⟨3, 2, 6⟩)]⟩ 11
    (.vObj [("id", .vStr "q4"), ("ok", .vBool false)]) "q4" false ⟨3, 2, 6⟩
    rfl rfl rfl rfl⟩

/-- C3: for a well-formed inbound query envelope (id and query tag both
strings), if the sender fails the access check, or passes it while no
handler is registered for the tag, the answering side sends back a
`queryAnswer` envelope `{id, ok: false}` — the query is not dropped and not
left to time out — and the registered query-handler table is never
invoked. -/
theorem C3_failed_query_answered_fast
    (env : MessagingEnv) (sender : Int) (msg : Value) (i q : String)
    (hroom : env.inChatRoom = true)
    (hinit : env.firstTimeInit = false)
    (hshape : checkQueryShape msg = some (i, q)) :
    ((env.charExists sender && env.charHasAccess sender) = false →
      queryHandler env sender msg =
        [.serverSend none "queryAnswer"
          (some (.vObj [("id", .vStr i), ("ok", .vBool false)]))]) ∧
    ((env.charExists sender && env.charHasAccess sender) = true →
      env.queryHandlerTags.contains q = false →
      queryHandler env sender msg =
        [.logWarn "Query no handler",
         .serverSend none "queryAnswer"
          (some (.vObj [("id", .vStr i), ("ok", .vBool false)]))]) ∧
    (((env.charExists sender && env.charHasAccess sender) = false ∨
        env.queryHandlerTags.contains q = false) →
      ∀ (tag : String) (s : Int) (p : Option Value),
        Effect.invokeQueryHandler tag s p ∉ queryHandler env sender msg) := by
  refine ⟨?_, ?_, ?_⟩
  · intro hacc
    simp [queryHandler, hshape, hacc, sendHiddenMessage, hroom, hinit]
  · intro hacc hhandler
    simp at hhandler
    simp [queryHandler, hshape, hacc, hhandler, sendHiddenMessage, hroom, hinit]
  · intro hfail tag s p
    rcases hfail with hacc | hhandler
    · simp [queryHandler, hshape, hacc, sendHiddenMessage, hroom, hinit]
    · simp at hhandler
      by_cases hacc : (env.charExists sender && env.charHasAccess sender) = true
      · simp [queryHandler, hshape, hacc, hhandler, sendHiddenMessage, hroom,
          hinit]
      · simp only [Bool.not_eq_true] at hacc
        simp [queryHandler, hshape, hacc, sendHiddenMessage, hroom, hinit]

theorem C3_witness :
    checkQueryShape (.vObj [("id", .vStr "q3"), ("query", .vStr "logData")]) =
      some ("q3", "logData") ∧
    queryHandler
        ⟨true, false, 1, fun _ => false, fun _ => false, ["logData"], []⟩ 4
        (.vObj [("id", .vStr "q3"), ("query", .vStr "logData")]) =
      [.serverSend none "queryAnswer"
        (some (.vObj [("id", .vStr "q3"), ("ok", .vBool false)]))] :=
  ⟨rfl, (C3_failed_query_answered_fast
    ⟨true, false, 1, fun _ => false, fun _ => false, ["logData"], []⟩ 4
    (.vObj [("id", .vStr "q3"), ("query", .vStr "logData")]) "q3" "logData"
    rfl rfl rfl).1 rfl⟩

/-- C10: when the answering side rejects an inbound query (sender fails the
access check, or no handler is registered for the tag), the `{id, ok: false}`
answer is sent through `sendHiddenMessage` with its default `null` target,
i.e. broadcast; a reply produced through a registered handler's reply
function is sent with the querying sender as its target. -/
theorem C10_rejection_broadcast_reply_addressed
    (env : MessagingEnv) (sender : Int) (msg : Value) (i q : String)
    (hroom : env.inChatRoom = true)
    (hinit : env.firstTimeInit = false)
    (hshape : checkQueryShape msg = some (i, q)) :
    ((env.charExists sender && env.charHasAccess sender) = false →
      ∃ payload, queryHandler env sender msg =
        [.serverSend none "queryAnswer" payload]) ∧
    ((env.charExists sender && env.charHasAccess sender) = true →
      env.queryHandlerTags.contains q = false →
      ∃ payload, queryHandler env sender msg =
        [.logWarn "Query no handler", .serverSend none "queryAnswer" payload]) ∧
    (∀ (id : String) (ok : Bool) (data : Option Value), ∃ payload,
      queryReplyFn env id sender ok data =
        [.serverSend (some sender) "queryAnswer" payload]) := by
  refine ⟨?_, ?_, ?_⟩
  · intro hacc
    refine ⟨some (.vObj [("id", .vStr i), ("ok", .vBool false)]), ?_⟩
    simp [queryHandler, hshape, hacc, sendHiddenMessage, hroom, hinit]
  · intro hacc hhandler
    simp at hhandler
    refine ⟨some (.vObj [("id", .vStr i), ("ok", .vBool false)]), ?_⟩
    simp [queryHandler, hshape, hacc, hhandler, sendHiddenMessage, hroom, hinit]
  · intro id ok data
    refine ⟨some (.vObj (("id", Value.vStr id) :: ("ok", Value.vBool ok) ::
      (match data with | some d => [("data", d)] | none => []))), ?_⟩
    simp [queryReplyFn, sendHiddenMessage, hroom, hinit]

theorem C10_witness :
    checkQueryShape (.vObj [("id", .vStr "qx"), ("query", .vStr "nosuch")]) =
      some ("qx", "nosuch") ∧
    (∃ payload,
      queryReplyFn ⟨true, false, 1, fun _ => true, fun _ => true, [], []⟩
          "qx" 4 true (some (.vBool true)) =
        [.serverSend (some 4) "queryAnswer" payload]) :=
  ⟨rfl, (C10_rejection_broadcast_reply_addressed
    ⟨true, false, 1, fun _ => true, fun _ => true, [], []⟩ 4
    (.vObj [("id", .vStr "qx"), ("query", .vStr "nosuch")]) "qx" "nosuch"
    rfl rfl rfl).2.2 "qx" true (some (.vBool true))⟩

/-- C5 counterexample: the remote variant's `setPermission`, called with the
`"self"` axis and a number (wrong shape for that axis), does not signal a
caller error — it builds the payload and sends the query over the wire. -/
theorem C5_counterexample :
    ChatroomCharacter.setPermission 7 "authority_edit_min" .selfEdit (.vNum 3) =
      .sendQueryCall "editPermission"
        (.vObj [("permission", .vStr "authority_edit_min"),
                ("edit", .vStr "self"), ("target", .vNum 3)]) 7 := rfl

/-- C5 (amended): only the self variant checks the target's shape — a
non-boolean for a `"self"` edit or a non-number for a `"min"` edit throws
immediately as a caller error; the remote variant performs no runtime shape
check and always sends the value over the wire. -/
theorem C5_self_variant_checks_shape
    : (∀ (perm : String) (target : Value), (∀ b, target ≠ .vBool b) →
        PlayerCharacter.setPermission perm .selfEdit target =
          .callerError "Invalid target value for self permission edit") ∧
      (∀ (perm : String) (target : Value), (∀ n, target ≠ .vNum n) →
        PlayerCharacter.setPermission perm .minEdit target =
          .callerError "Invalid target value for min permission edit") ∧
      (∀ (mn : Int) (perm : String) (ty : PermissionEditType) (target : Value),
        ChatroomCharacter.setPermission mn perm ty target =
          .sendQueryCall "editPermission"
            (.vObj [("permission", .vStr perm), ("edit", .vStr ty.wireName),
                    ("target", target)]) mn) := by
  refine ⟨?_, ?_, ?_⟩
  · intro perm target h
    cases target with
    | vBool b => exact absurd rfl (h b)
    | vNull => rfl
    | vNum n => rfl
    | vStr s => rfl
    | vArr l => rfl
    | vObj f => rfl
  · intro perm target h
    cases target with
    | vNum n => exact absurd rfl (h n)
    | vNull => rfl
    | vBool b => rfl
    | vStr s => rfl
    | vArr l => rfl
    | vObj f => rfl
  · intro mn perm ty target
    rfl

theorem C5_witness :
    (∀ b, Value.vNum 3 ≠ .vBool b) ∧
    PlayerCharacter.setPermission "authority_edit_min" .selfEdit (.vNum 3) =
      .callerError "Invalid target value for self permission edit" :=
  ⟨fun b h => Value.noConfusion h,
   C5_self_variant_checks_shape.1 "authority_edit_min" (.vNum 3)
     (fun b h => Value.noConfusion h)⟩

/-- C6: each rebuild tick folds the registered builders in registration
order over the default empty record; when the result is structurally equal
to the current `Effects` record nothing changes and no refresh or
announcement fires, and when it differs the new record is installed and
exactly one `CharacterRefresh` plus one `announceSelf` fire. -/
theorem C6_effect_rebuild_suppression
    (builders : List (BCXEffects → BCXEffects)) (current : BCXEffects) :
    (builders.foldl (fun e b => b e) defaultBCXEffects = current →
      buildPlayerEffects builders current = (current, [])) ∧
    (builders.foldl (fun e b => b e) defaultBCXEffects ≠ current →
      buildPlayerEffects builders current =
        (builders.foldl (fun e b => b e) defaultBCXEffects,
         [.characterRefresh, .announceSelf])) := by
  constructor
  · intro h
    simp [buildPlayerEffects, h]
  · intro h
    simp [buildPlayerEffects, h]

theorem C6_witness :
    ([fun e => BCXEffects.mk (e.Effect ++ ["BlindHeavy"])].foldl
        (fun e b => b e) defaultBCXEffects ≠ BCXEffects.mk []) ∧
    buildPlayerEffects [fun e => BCXEffects.mk (e.Effect ++ ["BlindHeavy"])]
        (BCXEffects.mk []) =
      (BCXEffects.mk ["BlindHeavy"], [.characterRefresh, .announceSelf]) ∧
    buildPlayerEffects [fun e => BCXEffects.mk (e.Effect ++ ["BlindHeavy"])]
        (BCXEffects.mk ["BlindHeavy"]) =
      (BCXEffects.mk ["BlindHeavy"], []) :=
  ⟨by decide,
   (C6_effect_rebuild_suppression
     [fun e => BCXEffects.mk (e.Effect ++ ["BlindHeavy"])]
     (BCXEffects.mk [])).2 (by decide),
   (C6_effect_rebuild_suppression
     [fun e => BCXEffects.mk (e.Effect ++ ["BlindHeavy"])]
     (BCXEffects.mk ["BlindHeavy"])).1 (by decide)⟩

theorem booleanValidate_not_bool (d : Option Value) (h : isBoolValue d = false) :
    booleanValidate d = .error (.jsError "Bad data") := by
  cases d with
  | none => rfl
  | some v =>
    cases v with
    | vBool b => simp [isBoolValue] at h
    | vNull => rfl
    | vNum n => rfl
    | vStr s => rfl
    | vArr l => rfl
    | vObj f => rfl

/-- C9: the remote variant's `getPermissionAccess` never rejects — its
terminal `.catch` turns every failure (rejection of the underlying
`sendQuery`, including timeout and init rejections and a peer `ok:false`
answer, as well as a non-boolean answer payload) into a resolution with
`false`, and a boolean payload resolves as itself; every other remote-variant
method has no `.catch`, so a `sendQuery` rejection propagates as a rejection,
and the boolean-validated methods likewise reject (`Bad data`) on a
non-boolean payload, as does `getMyAccessLevel` on a non-number payload. -/
theorem C9_getPermissionAccess_never_rejects :
    (∀ o, ∃ b, ChatroomCharacter.getPermissionAccess o = .ok b) ∧
    (∀ e, ChatroomCharacter.getPermissionAccess (.rejected e) = .ok false) ∧
    (∀ d, isBoolValue d = false →
      ChatroomCharacter.getPermissionAccess (.resolved d) = .ok false) ∧
    (∀ b, ChatroomCharacter.getPermissionAccess (.resolved (some (.vBool b))) =
      .ok b) ∧
    (∀ e, ChatroomCharacter.getDisabledModules (.rejected e) =
      .error (.value e)) ∧
    (∀ al fb e, ChatroomCharacter.getPermissions al fb (.rejected e) =
      .error (.value e)) ∧
    (∀ al e, ChatroomCharacter.getMyAccessLevel al (.rejected e) =
      .error (.value e)) ∧
    (∀ e, ChatroomCharacter.setPermissionThen (.rejected e) =
      .error (.value e)) ∧
    (∀ e, ChatroomCharacter.getRolesData (.rejected e) = .error (.value e)) ∧
    (∀ e, ChatroomCharacter.editRole (.rejected e) = .error (.value e)) ∧
    (∀ e, ChatroomCharacter.getLogEntries (.rejected e) = .error (.value e)) ∧
    (∀ e, ChatroomCharacter.logMessageDelete (.rejected e) =
      .error (.value e)) ∧
    (∀ nd ld e, ChatroomCharacter.getLogConfig nd ld (.rejected e) =
      .error (.value e)) ∧
    (∀ e, ChatroomCharacter.setLogConfig (.rejected e) = .error (.value e)) ∧
    (∀ e, ChatroomCharacter.logClear (.rejected e) = .error (.value e)) ∧
    (∀ e, ChatroomCharacter.logPraise (.rejected e) = .error (.value e)) ∧
    (∀ e, ChatroomCharacter.logGetAllowedActions (.rejected e) =
      .error (.value e)) ∧
    (∀ e, ChatroomCharacter.curseItem (.rejected e) = .error (.value e)) ∧
    (∀ e, ChatroomCharacter.curseLift (.rejected e) = .error (.value e)) ∧
    (∀ e, ChatroomCharacter.curseBatch (.rejected e) = .error (.value e)) ∧
    (∀ e, ChatroomCharacter.curseLiftAll (.rejected e) = .error (.value e)) ∧
    (∀ g e, ChatroomCharacter.conditionsGetByCategory g (.rejected e) =
      .error (.value e)) ∧
    (∀ e, ChatroomCharacter.conditionSetLimit (.rejected e) =
      .error (.value e)) ∧
    (∀ e, ChatroomCharacter.conditionUpdate (.rejected e) =
      .error (.value e)) ∧
    (∀ e, ChatroomCharacter.conditionCategoryUpdate (.rejected e) =
      .error (.value e)) ∧
    (∀ e, ChatroomCharacter.ruleCreate (.rejected e) = .error (.value e)) ∧
    (∀ e, ChatroomCharacter.ruleDelete (.rejected e) = .error (.value e)) ∧
    (∀ d, isBoolValue d = false →
      ChatroomCharacter.setPermissionThen (.resolved d) =
        .error (.jsError "Bad data")) ∧
    (∀ d, isBoolValue d = false →
      ChatroomCharacter.editRole (.resolved d) = .error (.jsError "Bad data")) ∧
    (∀ d, isBoolValue d = false →
      ChatroomCharacter.logMessageDelete (.resolved d) =
        .error (.jsError "Bad data")) ∧
    (∀ d, isBoolValue d = false →
      ChatroomCharacter.setLogConfig (.resolved d) =
        .error (.jsError "Bad data")) ∧
    (∀ d, isBoolValue d = false →
      ChatroomCharacter.logClear (.resolved d) = .error (.jsError "Bad data")) ∧
    (∀ d, isBoolValue d = false →
      ChatroomCharacter.logPraise (.resolved d) =
        .error (.jsError "Bad data")) ∧
    (∀ d, isBoolValue d = false →
      ChatroomCharacter.curseItem (.resolved d) =
        .error (.jsError "Bad data")) ∧
    (∀ d, isBoolValue d = false →
      ChatroomCharacter.curseLift (.resolved d) =
        .error (.jsError "Bad data")) ∧
    (∀ d, isBoolValue d = false →
      ChatroomCharacter.curseBatch (.resolved d) =
        .error (.jsError "Bad data")) ∧
    (∀ d, isBoolValue d = false →
      ChatroomCharacter.curseLiftAll (.resolved d) =
        .error (.jsError "Bad data")) ∧
    (∀ d, isBoolValue d = false →
      ChatroomCharacter.conditionSetLimit (.resolved d) =
        .error (.jsError "Bad data")) ∧
    (∀ d, isBoolValue d = false →
      ChatroomCharacter.conditionUpdate (.resolved d) =
        .error (.jsError "Bad data")) ∧
    (∀ d, isBoolValue d = false →
      ChatroomCharacter.conditionCategoryUpdate (.resolved d) =
        .error (.jsError "Bad data")) ∧
    (∀ d, isBoolValue d = false →
      ChatroomCharacter.ruleCreate (.resolved d) =
        .error (.jsError "Bad data")) ∧
    (∀ d, isBoolValue d = false →
      ChatroomCharacter.ruleDelete (.resolved d) =
        .error (.jsError "Bad data")) ∧
    (∀ al d, isNumberValue d = false →
      ChatroomCharacter.getMyAccessLevel al (.resolved d) =
        .error (.jsError "Bad data")) := by
  refine ⟨?_, ?_, ?_, ?_, ?_, ?_, ?_, ?_, ?_, ?_, ?_, ?_, ?_, ?_, ?_, ?_, ?_,
    ?_, ?_, ?_, ?_, ?_, ?_, ?_, ?_, ?_, ?_, ?_, ?_, ?_, ?_, ?_, ?_, ?_, ?_,
    ?_, ?_, ?_, ?_, ?_, ?_, ?_, ?_⟩
  · intro o
    cases o with
    | rejected e => exact ⟨false, rfl⟩
    | resolved d =>
      cases d with
      | none => exact ⟨false, rfl⟩
      | some v =>
        cases v with
        | vBool b => exact ⟨b, rfl⟩
        | vNull => exact ⟨false, rfl⟩
        | vNum n => exact ⟨false, rfl⟩
        | vStr s => exact ⟨false, rfl⟩
        | vArr l => exact ⟨false, rfl⟩
        | vObj f => exact ⟨false, rfl⟩
  · intro e
    rfl
  · intro d h
    cases d with
    | none => rfl
    | some v =>
      cases v with
      | vBool b => simp [isBoolValue] at h
      | vNull => rfl
      | vNum n => rfl
      | vStr s => rfl
      | vArr l => rfl
      | vObj f => rfl
  · intro b
    rfl
  · intro e
    rfl
  · intro al fb e
    rfl
  · intro al e
    rfl
  · intro e
    rfl
  · intro e
    rfl
  · intro e
    rfl
  · intro e
    rfl
  · intro e
    rfl
  · intro nd ld e
    rfl
  · intro e
    rfl
  · intro e
    rfl
  · intro e
    rfl
  · intro e
    rfl
  · intro e
    rfl
  · intro e
    rfl
  · intro e
    rfl
  · intro e
    rfl
  · intro g e
    rfl
  · intro e
    rfl
  · intro e
    rfl
  · intro e
    rfl
  · intro e
    rfl
  · intro e
    rfl
  · exact fun d h => booleanValidate_not_bool d h
  · exact fun d h => booleanValidate_not_bool d h
  · exact fun d h => booleanValidate_not_bool d h
  · exact fun d h => booleanValidate_not_bool d h
  · exact fun d h => booleanValidate_not_bool d h
  · exact fun d h => booleanValidate_not_bool d h
  · exact fun d h => booleanValidate_not_bool d h
  · exact fun d h => booleanValidate_not_bool d h
  · exact fun d h => booleanValidate_not_bool d h
  · exact fun d h => booleanValidate_not_bool d h
  · exact fun d h => booleanValidate_not_bool d h
  · exact fun d h => booleanValidate_not_bool d h
  · exact fun d h => booleanValidate_not_bool d h
  · exact fun d h => booleanValidate_not_bool d h
  · exact fun d h => booleanValidate_not_bool d h
  · intro al d h
    cases d with
    | none => rfl
    | some v =>
      cases v with
      | vNum n => simp [isNumberValue] at h
      | vNull => rfl
      | vBool b => rfl
      | vStr s => rfl
      | vArr l => rfl
      | vObj f => rfl

theorem C9_witness :
    isBoolValue (some (.vStr "oops")) = false ∧
    ChatroomCharacter.getPermissionAccess (.resolved (some (.vStr "oops"))) =
      .ok false ∧
    ChatroomCharacter.logClear
        (.rejected (some (.vStr "Timed out"))) =
      .error (.value (some (.vStr "Timed out"))) :=
  ⟨rfl,
   C9_getPermissionAccess_never_rejects.2.2.1 (some (.vStr "oops")) rfl,
   C9_getPermissionAccess_never_rejects.2.2.2.2.2.2.2.2.2.2.2.2.2.2.1
     (some (.vStr "Timed out"))⟩

/-- C8: for an inbound chat payload recognized as a hidden BCX message, a
stated sender equal to self's member number makes the hook ignore the
message entirely; a missing or non-object `Dictionary` is logged and
dropped; a string inner `type` with no registered handler is logged and
dropped; the registered handler for the type is invoked with the sender and
inner message only when every one of those checks has passed (the hook is a
total function, so dispatch never throws). -/
theorem C8_hidden_dispatch_safe
    (env : MessagingEnv) (data : Value) (sender : Int)
    (hrec : isHiddenBCX data = some sender) :
    (sender = env.playerMemberNumber → chatRoomMessageHook env data = []) ∧
    (sender ≠ env.playerMemberNumber → env.firstTimeInit = false →
      isObjectValue (data.get "Dictionary") = false →
      chatRoomMessageHook env data = [.logWarn "Hidden message no Dictionary"]) ∧
    (∀ dict t, sender ≠ env.playerMemberNumber → env.firstTimeInit = false →
      data.get "Dictionary" = some dict → dict.isObject = true →
      dict.get "type" = some (.vStr t) →
      env.hiddenHandlerTags.contains t = false →
      chatRoomMessageHook env data = [.logWarn "Hidden message no handler"]) ∧
    (∀ dict t, sender ≠ env.playerMemberNumber → env.firstTimeInit = false →
      data.get "Dictionary" = some dict → dict.isObject = true →
      dict.get "type" = some (.vStr t) →
      env.hiddenHandlerTags.contains t = true →
      chatRoomMessageHook env data =
        [.invokeMessageHandler t sender (dict.get "message")]) ∧
    (∀ t s p, Effect.invokeMessageHandler t s p ∈ chatRoomMessageHook env data →
      s = sender ∧ s ≠ env.playerMemberNumber ∧ env.firstTimeInit = false ∧
      env.hiddenHandlerTags.contains t = true ∧
      ∃ dict, data.get "Dictionary" = some dict ∧ dict.isObject = true ∧
        dict.get "type" = some (.vStr t) ∧ p = dict.get "message") := by
  refine ⟨?_, ?_, ?_, ?_, ?_⟩
  · intro hself
    simp [chatRoomMessageHook, hrec, hself]
  · intro hself hinit hdict
    cases hd : data.get "Dictionary" with
    | none => simp [chatRoomMessageHook, hrec, hself, hinit, hd]
    | some dict =>
      rw [hd] at hdict
      simp only [isObjectValue] at hdict
      simp [chatRoomMessageHook, hrec, hself, hinit, hd, hdict]
  · intro dict t hself hinit hd hobj hty hhandler
    simp at hhandler
    simp [chatRoomMessageHook, hrec, hself, hinit, hd, hobj, hty, hhandler]
  · intro dict t hself hinit hd hobj hty hhandler
    simp at hhandler
    simp [chatRoomMessageHook, hrec, hself, hinit, hd, hobj, hty, hhandler]
  · intro t s p hmem
    simp only [chatRoomMessageHook, hrec] at hmem
    split at hmem
    · simp at hmem
    · rename_i hcond
      simp only [Bool.or_eq_true, not_or, Bool.not_eq_true] at hcond
      obtain ⟨hc1, hc2⟩ := hcond
      split at hmem
      · simp at hmem
      · rename_i dict hd
        split at hmem
        · simp at hmem
        · rename_i hobjneg
          simp only [Bool.not_eq_true'] at hobjneg
          split at hmem
          · rename_i t2 hty
            split at hmem
            · rename_i hreg
              rw [List.mem_singleton] at hmem
              injection hmem with h1 h2 h3
              subst h1
              subst h2
              subst h3
              refine ⟨rfl, by simpa using hc1, hc2, hreg, dict, hd, ?_, hty,
                rfl⟩
              simpa using hobjneg
            · simp at hmem
          · simp at hmem

theorem C8_witness :
    isHiddenBCX (.vObj [("Type", .vStr "Hidden"), ("Content", .vStr "BCXMsg"),
      ("Sender", .vNum 4),
      ("Dictionary", .vObj [("type", .vStr "goodbye"),
        ("message", .vNull)])]) = some 4 ∧
    chatRoomMessageHook ⟨true, false, 1, fun _ => true, fun _ => true, [],
        ["goodbye"]⟩
      (.vObj [("Type", .vStr "Hidden"), ("Content", .vStr "BCXMsg"),
        ("Sender", .vNum 4),
        ("Dictionary", .vObj [("type", .vStr "goodbye"),
          ("message", .vNull)])]) =
      [.invokeMessageHandler "goodbye" 4 (some .vNull)] :=
  ⟨rfl,
   (C8_hidden_dispatch_safe
     ⟨true, false, 1, fun _ => true, fun _ => true, [], ["goodbye"]⟩
     (.vObj [("Type", .vStr "Hidden"), ("Content", .vStr "BCXMsg"),
       ("Sender", .vNum 4),
       ("Dictionary", .vObj [("type", .vStr "goodbye"),
         ("message", .vNull)])]) 4 rfl).2.2.2.1
     (.vObj [("type", .vStr "goodbye"), ("message", .vNull)]) "goodbye"
     (by decide) rfl rfl rfl rfl rfl⟩

theorem cleanOld_mem (env : RegistryEnv) (st : RegistryState)
    (p : CharacterProxy) :
    p ∈ (cleanOldCharacters env st).currentRoomCharacters ↔
      p ∈ st.currentRoomCharacters ∧
        (p.isPlayer = true ∨ p.character ∈ env.chatRoomCharacter) := by
  simp [cleanOldCharacters, List.mem_filter]

theorem RegistryWF_clean (env : RegistryEnv) (st : RegistryState)
    (h : RegistryWF env st) : RegistryWF env (cleanOldCharacters env st) := by
  obtain ⟨h1, h2, h3⟩ := h
  refine ⟨?_, ?_, ?_⟩
  · exact List.Pairwise.sublist (List.filter_sublist _) h1
  · intro p hp
    exact h2 p ((cleanOld_mem env st p).1 hp).1
  · intro p hp
    exact h3 p ((cleanOld_mem env st p).1 hp).1

theorem find?_none_memberNumber {l : List CharacterProxy} {mn : Int}
    (h : l.find? (fun p => p.character.memberNumber == mn) = none) :
    ∀ p ∈ l, p.character.memberNumber ≠ mn := by
  intro p hp
  have := List.find?_eq_none.1 h p hp
  simpa using this

theorem RegistryWF_append_player (env : RegistryEnv) (st1 : RegistryState)
    (h : RegistryWF env st1) (uid : Nat)
    (hnone : ∀ p ∈ st1.currentRoomCharacters,
      p.character.memberNumber ≠ env.player.memberNumber) :
    RegistryWF env
      ⟨st1.currentRoomCharacters ++ [⟨uid, env.player, true⟩], uid + 1⟩ := by
  obtain ⟨h1, h2, h3⟩ := h
  refine ⟨?_, ?_, ?_⟩
  · rw [List.pairwise_append]
    refine ⟨h1, by simp, ?_⟩
    intro a ha b hb
    simp only [List.mem_singleton] at hb
    subst hb
    exact hnone a ha
  · intro p hp
    rcases List.mem_append.1 hp with hp | hp
    · exact h2 p hp
    · simp only [List.mem_singleton] at hp
      subst hp
      simp
  · intro p hp
    rcases List.mem_append.1 hp with hp | hp
    · exact h3 p hp
    · simp only [List.mem_singleton] at hp
      subst hp
      intro _
      rfl

theorem RegistryWF_append_remote (env : RegistryEnv) (st1 : RegistryState)
    (h : RegistryWF env st1) (uid : Nat) (bc : GameCharacter) (mn : Int)
    (hbcmn : bc.memberNumber = mn)
    (hmn : env.player.memberNumber ≠ mn)
    (hnone : ∀ p ∈ st1.currentRoomCharacters, p.character.memberNumber ≠ mn) :
    RegistryWF env
      ⟨st1.currentRoomCharacters ++ [⟨uid, bc, false⟩], uid + 1⟩ := by
  obtain ⟨h1, h2, h3⟩ := h
  refine ⟨?_, ?_, ?_⟩
  · rw [List.pairwise_append]
    refine ⟨h1, by simp, ?_⟩
    intro a ha b hb
    simp only [List.mem_singleton] at hb
    subst hb
    simpa [hbcmn] using hnone a ha
  · intro p hp
    rcases List.mem_append.1 hp with hp | hp
    · exact h2 p hp
    · simp only [List.mem_singleton] at hp
      subst hp
      constructor
      · intro hfalse
        exact absurd hfalse (by simp)
      · intro hchar
        exfalso
        apply hmn
        rw [← hchar]
        exact hbcmn
  · intro p hp
    rcases List.mem_append.1 hp with hp | hp
    · exact h3 p hp
    · simp only [List.mem_singleton] at hp
      subst hp
      intro hmn2
      exact absurd (hmn2.symm.trans hbcmn) hmn

theorem getChatroomCharacter_cases (env : RegistryEnv) (st : RegistryState)
    (mn : Int) :
    (∃ c, (cleanOldCharacters env st).currentRoomCharacters.find?
        (fun p => p.character.memberNumber == mn) = some c ∧
      getChatroomCharacter env st mn = (some c, cleanOldCharacters env st)) ∨
    ((cleanOldCharacters env st).currentRoomCharacters.find?
        (fun p => p.character.memberNumber == mn) = none ∧
      env.player.memberNumber = mn ∧
      getChatroomCharacter env st mn =
        (some ⟨(cleanOldCharacters env st).nextUid, env.player, true⟩,
         ⟨(cleanOldCharacters env st).currentRoomCharacters ++
            [⟨(cleanOldCharacters env st).nextUid, env.player, true⟩],
          (cleanOldCharacters env st).nextUid + 1⟩)) ∨
    ((cleanOldCharacters env st).currentRoomCharacters.find?
        (fun p => p.character.memberNumber == mn) = none ∧
      env.player.memberNumber ≠ mn ∧
      ∃ bc, env.chatRoomCharacter.find? (fun c => c.memberNumber == mn) =
          some bc ∧
        getChatroomCharacter env st mn =
          (some ⟨(cleanOldCharacters env st).nextUid, bc, false⟩,
           ⟨(cleanOldCharacters env st).currentRoomCharacters ++
              [⟨(cleanOldCharacters env st).nextUid, bc, false⟩],
            (cleanOldCharacters env st).nextUid + 1⟩)) ∨
    ((cleanOldCharacters env st).currentRoomCharacters.find?
        (fun p => p.character.memberNumber == mn) = none ∧
      env.player.memberNumber ≠ mn ∧
      env.chatRoomCharacter.find? (fun c => c.memberNumber == mn) = none ∧
      getChatroomCharacter env st mn = (none, cleanOldCharacters env st)) := by
  cases hfind : (cleanOldCharacters env st).currentRoomCharacters.find?
      (fun p => p.character.memberNumber == mn) with
  | some c =>
    left
    exact ⟨c, rfl, by simp [getChatroomCharacter, hfind]⟩
  | none =>
    by_cases hmn : env.player.memberNumber = mn
    · right; left
      exact ⟨rfl, hmn, by simp [getChatroomCharacter, hfind, hmn]⟩
    · cases hbc : env.chatRoomCharacter.find? (fun c => c.memberNumber == mn) with
      | some bc =>
        right; right; left
        exact ⟨rfl, hmn, bc, rfl,
          by simp [getChatroomCharacter, hfind, hmn, hbc]⟩
      | none =>
        right; right; right
        exact ⟨rfl, hmn, rfl, by simp [getChatroomCharacter, hfind, hmn, hbc]⟩

/-- C7: from a well-formed registry state, `getChatroomCharacter` preserves
well-formedness (at most one live proxy per member id), never evicts the
player proxy, lazily evicts exactly the cached non-player proxies whose
character is no longer in the session, returns the cached proxy when one
carries the requested member number, otherwise constructs and caches a
player-variant proxy when the id is self's, a remote-variant proxy when a
session member carries the id, and returns nothing when no participant
does; `getPlayerCharacter` likewise preserves well-formedness, always
returns the player-variant proxy wrapping the `Player` object, and evicts
nothing. -/
theorem C7_registry_invariants (env : RegistryEnv) (st : RegistryState)
    (mn : Int) (h : RegistryWF env st) :
    RegistryWF env (getChatroomCharacter env st mn).2 ∧
    (∀ p ∈ st.currentRoomCharacters, p.isPlayer = true →
      p ∈ (getChatroomCharacter env st mn).2.currentRoomCharacters) ∧
    (∀ p ∈ (getChatroomCharacter env st mn).2.currentRoomCharacters,
      p.isPlayer = true ∨ p.character ∈ env.chatRoomCharacter) ∧
    (∀ p ∈ st.currentRoomCharacters, p.isPlayer = false →
      p.character ∉ env.chatRoomCharacter →
      p ∉ (getChatroomCharacter env st mn).2.currentRoomCharacters) ∧
    (∀ c, (cleanOldCharacters env st).currentRoomCharacters.find?
        (fun p => p.character.memberNumber == mn) = some c →
      getChatroomCharacter env st mn = (some c, cleanOldCharacters env st)) ∧
    ((cleanOldCharacters env st).currentRoomCharacters.find?
        (fun p => p.character.memberNumber == mn) = none →
      env.player.memberNumber = mn →
      ∃ c, (getChatroomCharacter env st mn).1 = some c ∧
        c.isPlayer = true ∧ c.character = env.player ∧
        (getChatroomCharacter env st mn).2.currentRoomCharacters =
          (cleanOldCharacters env st).currentRoomCharacters ++ [c]) ∧
    ((cleanOldCharacters env st).currentRoomCharacters.find?
        (fun p => p.character.memberNumber == mn) = none →
      env.player.memberNumber ≠ mn →
      ∀ bc, env.chatRoomCharacter.find?
          (fun c => c.memberNumber == mn) = some bc →
      ∃ c, (getChatroomCharacter env st mn).1 = some c ∧
        c.isPlayer = false ∧ c.character = bc ∧
        (getChatroomCharacter env st mn).2.currentRoomCharacters =
          (cleanOldCharacters env st).currentRoomCharacters ++ [c]) ∧
    ((cleanOldCharacters env st).currentRoomCharacters.find?
        (fun p => p.character.memberNumber == mn) = none →
      env.player.memberNumber ≠ mn →
      env.chatRoomCharacter.find? (fun c => c.memberNumber == mn) = none →
      getChatroomCharacter env st mn = (none, cleanOldCharacters env st)) ∧
    RegistryWF env (getPlayerCharacter env st).2 ∧
    (getPlayerCharacter env st).1.character = env.player ∧
    (getPlayerCharacter env st).1.isPlayer = true ∧
    (∀ p ∈ st.currentRoomCharacters,
      p ∈ (getPlayerCharacter env st).2.currentRoomCharacters) := by
  have hclean := RegistryWF_clean env st h
  refine ⟨?_, ?_, ?_, ?_, ?_, ?_, ?_, ?_, ?_, ?_, ?_, ?_⟩
  · rcases getChatroomCharacter_cases env st mn with
      ⟨c, hfind, heq⟩ | ⟨hfind, hmn, heq⟩ | ⟨hfind, hmn, bc, hbc, heq⟩ |
      ⟨hfind, hmn, hbc, heq⟩
    · rw [heq]
      exact hclean
    · rw [heq]
      refine RegistryWF_append_player env (cleanOldCharacters env st) hclean
        (cleanOldCharacters env st).nextUid ?_
      intro p hp
      rw [hmn]
      exact find?_none_memberNumber hfind p hp
    · rw [heq]
      exact RegistryWF_append_remote env (cleanOldCharacters env st) hclean
        (cleanOldCharacters env st).nextUid bc mn
        (by simpa using List.find?_some hbc) hmn
        (find?_none_memberNumber hfind)
    · rw [heq]
      exact hclean
  · intro p hp hpl
    have hmem : p ∈ (cleanOldCharacters env st).currentRoomCharacters :=
      (cleanOld_mem env st p).2 ⟨hp, Or.inl hpl⟩
    rcases getChatroomCharacter_cases env st mn with
      ⟨c, hfind, heq⟩ | ⟨hfind, hmn, heq⟩ | ⟨hfind, hmn, bc, hbc, heq⟩ |
      ⟨hfind, hmn, hbc, heq⟩
    · rw [heq]
      exact hmem
    · rw [heq]
      exact List.mem_append.2 (Or.inl hmem)
    · rw [heq]
      exact List.mem_append.2 (Or.inl hmem)
    · rw [heq]
      exact hmem
  · intro p hp
    rcases getChatroomCharacter_cases env st mn with
      ⟨c, hfind, heq⟩ | ⟨hfind, hmn, heq⟩ | ⟨hfind, hmn, bc, hbc, heq⟩ |
      ⟨hfind, hmn, hbc, heq⟩
    · rw [heq] at hp
      exact ((cleanOld_mem env st p).1 hp).2
    · rw [heq] at hp
      rcases List.mem_append.1 hp with hp | hp
      · exact ((cleanOld_mem env st p).1 hp).2
      · simp only [List.mem_singleton] at hp
        subst hp
        exact Or.inl rfl
    · rw [heq] at hp
      rcases List.mem_append.1 hp with hp | hp
      · exact ((cleanOld_mem env st p).1 hp).2
      · simp only [List.mem_singleton] at hp
        subst hp
        exact Or.inr (List.mem_of_find?_eq_some hbc)
    · rw [heq] at hp
      exact ((cleanOld_mem env st p).1 hp).2
  · intro p hp hnpl hnroom hmem
    have hnclean : p ∉ (cleanOldCharacters env st).currentRoomCharacters := by
      intro hc
      rcases ((cleanOld_mem env st p).1 hc).2 with hpl | hr
      · rw [hnpl] at hpl
        exact absurd hpl (by simp)
      · exact hnroom hr
    rcases getChatroomCharacter_cases env st mn with
      ⟨c, hfind, heq⟩ | ⟨hfind, hmn, heq⟩ | ⟨hfind, hmn, bc, hbc, heq⟩ |
      ⟨hfind, hmn, hbc, heq⟩
    · rw [heq] at hmem
      exact hnclean hmem
    · rw [heq] at hmem
      rcases List.mem_append.1 hmem with hm | hm
      · exact hnclean hm
      · simp only [List.mem_singleton] at hm
        rw [hm] at hnpl
        exact absurd hnpl (by simp)
    · rw [heq] at hmem
      rcases List.mem_append.1 hmem with hm | hm
      · exact hnclean hm
      · simp only [List.mem_singleton] at hm
        apply hnroom
        rw [hm]
        exact List.mem_of_find?_eq_some hbc
    · rw [heq] at hmem
      exact hnclean hmem
  · intro c hfind0
    rcases getChatroomCharacter_cases env st mn with
      ⟨c', hfind, heq⟩ | ⟨hfind, hmn, heq⟩ | ⟨hfind, hmn, bc, hbc, heq⟩ |
      ⟨hfind, hmn, hbc, heq⟩
    · rw [hfind0] at hfind
      injection hfind with hceq
      rw [hceq]
      exact heq
    · rw [hfind0] at hfind
      exact absurd hfind (by simp)
    · rw [hfind0] at hfind
      exact absurd hfind (by simp)
    · rw [hfind0] at hfind
      exact absurd hfind (by simp)
  · intro hfind0 hmn0
    rcases getChatroomCharacter_cases env st mn with
      ⟨c', hfind, heq⟩ | ⟨hfind, hmn, heq⟩ | ⟨hfind, hmn, bc, hbc, heq⟩ |
      ⟨hfind, hmn, hbc, heq⟩
    · rw [hfind0] at hfind
      exact absurd hfind (by simp)
    · exact ⟨⟨(cleanOldCharacters env st).nextUid, env.player, true⟩,
        by rw [heq], rfl, rfl, by rw [heq]⟩
    · exact absurd hmn0 hmn
    · exact absurd hmn0 hmn
  · intro hfind0 hmn0 bc0 hbc0
    rcases getChatroomCharacter_cases env st mn with
      ⟨c', hfind, heq⟩ | ⟨hfind, hmn, heq⟩ | ⟨hfind, hmn, bc, hbc, heq⟩ |
      ⟨hfind, hmn, hbc, heq⟩
    · rw [hfind0] at hfind
      exact absurd hfind (by simp)
    · exact absurd hmn hmn0
    · rw [hbc0] at hbc
      injection hbc with hbceq
      rw [hbceq]
      exact ⟨⟨(cleanOldCharacters env st).nextUid, bc, false⟩,
        by rw [heq], rfl, rfl, by rw [heq]⟩
    · rw [hbc0] at hbc
      exact absurd hbc (by simp)
  · intro hfind0 hmn0 hbc0
    rcases getChatroomCharacter_cases env st mn with
      ⟨c', hfind, heq⟩ | ⟨hfind, hmn, heq⟩ | ⟨hfind, hmn, bc, hbc, heq⟩ |
      ⟨hfind, hmn, hbc, heq⟩
    · rw [hfind0] at hfind
      exact absurd hfind (by simp)
    · exact absurd hmn hmn0
    · rw [hbc0] at hbc
      exact absurd hbc (by simp)
    · exact heq
  · cases hf : st.currentRoomCharacters.find?
        (fun c => c.character == env.player) with
    | some c =>
      simpa [getPlayerCharacter, hf] using h
    | none =>
      simp only [getPlayerCharacter, hf]
      refine RegistryWF_append_player env st h st.nextUid ?_
      intro p hp hmn2
      have hne : p.character ≠ env.player := by
        simpa using List.find?_eq_none.1 hf p hp
      exact hne (h.2.2 p hp hmn2)
  · cases hf : st.currentRoomCharacters.find?
        (fun c => c.character == env.player) with
    | some c =>
      have := List.find?_some hf
      simp only [getPlayerCharacter, hf]
      simpa using this
    | none =>
      simp [getPlayerCharacter, hf]
  · cases hf : st.currentRoomCharacters.find?
        (fun c => c.character == env.player) with
    | some c =>
      have hc : c ∈ st.currentRoomCharacters := List.mem_of_find?_eq_some hf
      have hchar : c.character = env.player := by
        simpa using List.find?_some hf
      simp only [getPlayerCharacter, hf]
      exact (h.2.1 c hc).2 hchar
    | none =>
      simp [getPlayerCharacter, hf]
  · intro p hp
    cases hf : st.currentRoomCharacters.find?
        (fun c => c.character == env.player) with
    | some c =>
      simpa [getPlayerCharacter, hf] using hp
    | none =>
      simp only [getPlayerCharacter, hf]
      exact List.mem_append.2 (Or.inl hp)

theorem C7_witness :
    RegistryWF ⟨⟨0, 1⟩, [⟨5, 2⟩]⟩ ⟨[], 0⟩ ∧
    RegistryWF ⟨⟨0, 1⟩, [⟨5, 2⟩]⟩
      (getChatroomCharacter ⟨⟨0, 1⟩, [⟨5, 2⟩]⟩ ⟨[], 0⟩ 2).2 := by
  have hwf : RegistryWF ⟨⟨0, 1⟩, [⟨5, 2⟩]⟩ ⟨[], 0⟩ :=
    ⟨List.Pairwise.nil, by simp, by simp⟩
  exact ⟨hwf, (C7_registry_invariants ⟨⟨0, 1⟩, [⟨5, 2⟩]⟩ ⟨[], 0⟩ 2 hwf).1⟩
